import Mathlib

set_option maxRecDepth 8192

/-!
# Verification of the qcom phone-number authentication service

A shallow embedding of the core of the `qcom` repository: the OTP manager
(`OTPService.GenerateOTP` / `OTPService.VerifyOTP`), the token issuer
(`JWTService`), the refresh-token ledger (`RefreshTokenService` over the
DynamoDB-backed `RefreshTokenRepository`), and the HTTP handlers
(`AuthHandlers`).  Time is modelled as natural-number instants, the
key-value stores as explicit functional / associative maps, random draws
(OTP digits, UUID identifiers) as explicit parameters, and infrastructure
failures as explicit `Except` results where a claim depends on them.
-/

namespace QCom

/-! ## Configuration (internal/config, `OTPConfig` and `JWTConfig`) -/

/-- Embeds `config.OTPConfig`: OTP length, expiry (a duration, here in abstract
time units) and the maximum attempt counter.  `MaxAttempts` is a Go `int`,
modelled as `Int`. -/
structure OTPConfig where
  length : Nat
  expiry : Nat
  maxAttempts : Int
  deriving Repr, DecidableEq

/-! ## The bcrypt interface

`GenerateOTP` stores `bcrypt.GenerateFromPassword(otp)` and `VerifyOTP`
checks a candidate with `bcrypt.CompareHashAndPassword`.  The contract of
that pair which the service relies on is: the comparison succeeds exactly
when the candidate equals the hashed plaintext.  We model the hash as an
injective tagging function, which realises exactly that contract. -/

/-- Model of `bcrypt.GenerateFromPassword`: an injective one-way digest. -/
def bcryptHash (s : String) : String := "bcrypt$" ++ s

/-- Model of `bcrypt.CompareHashAndPassword`: `true` iff the stored digest
matches the candidate's digest (the Go call returns `nil` error). -/
def bcryptCompareOK (digest candidate : String) : Bool :=
  digest == bcryptHash candidate

theorem bcryptHash_injective : Function.Injective bcryptHash := by
  intro a b h
  have hd : ("bcrypt$" ++ a).data = ("bcrypt$" ++ b).data := by
    rw [show "bcrypt$" ++ a = "bcrypt$" ++ b from h]
  simp only [String.data_append] at hd
  exact String.ext (List.append_cancel_left hd)

theorem bcryptCompareOK_self (s : String) : bcryptCompareOK (bcryptHash s) s = true := by
  simp [bcryptCompareOK]

theorem bcryptCompareOK_ne {a b : String} (h : a ≠ b) :
    bcryptCompareOK (bcryptHash a) b = false := by
  simp only [bcryptCompareOK, beq_eq_false_iff_ne, ne_eq]
  intro hc
  exact h (bcryptHash_injective hc.symm).symm

/-! ## OTP records and the OTP store (internal/models `OTPData`,
internal/repository `OTPRepository`) -/

/-- Embeds `models.OTPData`. -/
structure OTPData where
  otpHash : String
  phone : String
  attempts : Int
  createdAt : Nat
  expiresAt : Nat
  deriving Repr, DecidableEq

/-- The OTP table keyed by phone number (`OTP#<phone>` partition keys in
DynamoDB, `otp:<phone>` keys in the Redis variant). -/
def OTPStore := String → Option OTPData

/-- Embeds `OTPRepository.Store`: an unconditional upsert of the record under the
phone-number key. -/
def OTPStore.put (st : OTPStore) (phone : String) (d : OTPData) : OTPStore :=
  fun k => if k = phone then some d else st k

/-- Embeds `OTPRepository.Delete`: removes the record under the phone-number key. -/
def OTPStore.del (st : OTPStore) (phone : String) : OTPStore :=
  fun k => if k = phone then none else st k

/-- The empty OTP table. -/
def OTPStore.empty : OTPStore := fun _ => none

theorem OTPStore.put_same (st : OTPStore) (phone : String) (d : OTPData) :
    st.put phone d phone = some d := by
  simp [OTPStore.put]

theorem OTPStore.del_same (st : OTPStore) (phone : String) :
    st.del phone phone = none := by
  simp [OTPStore.del]

/-! ## The OTP service (src/unnamed/part_006 `OTPService`; the Redis
variant in part_004 has the identical decision structure) -/

/-- The failure modes of `OTPService.VerifyOTP`, in the order the code
tests for them (each corresponds to one `return false, fmt.Errorf(...)`). -/
inductive VerifyError where
  | notFound
  | expired
  | attemptsExceeded
  | mismatch
  deriving Repr, DecidableEq

/-- Embeds `OTPService.GenerateOTP`: hashes the (randomly drawn) plaintext `otp`
and upserts a fresh record with attempt counter 0, `CreatedAt = now` and
`ExpiresAt = now + cfg.Expiry`, overwriting any record already stored for
`phone`.  The random draw is passed in as the `otp` argument; the plaintext
is returned to the caller. -/
def GenerateOTP (cfg : OTPConfig) (now : Nat) (otp : String) (st : OTPStore)
    (phone : String) : String × OTPStore :=
  (otp, st.put phone
    { otpHash := bcryptHash otp
      phone := phone
      attempts := 0
      createdAt := now
      expiresAt := now + cfg.expiry })

/-- Embeds `OTPService.VerifyOTP` (part_006 lines 72–107): fetch, then the
expiry check (`time.Now().After(ExpiresAt)`, i.e. strictly past expiry,
deleting the record), then the attempts check (`Attempts >= MaxAttempts`,
deleting the record), then the bcrypt comparison — on mismatch the record
is re-stored with the attempt counter incremented, on match it is
deleted.  Returns the service result together with the updated store. -/
def VerifyOTP (cfg : OTPConfig) (now : Nat) (st : OTPStore)
    (phone otp : String) : Except VerifyError Unit × OTPStore :=
  match st phone with
  | none => (.error .notFound, st)
  | some d =>
    if now > d.expiresAt then
      (.error .expired, st.del phone)
    else if d.attempts ≥ cfg.maxAttempts then
      (.error .attemptsExceeded, st.del phone)
    else if ¬ bcryptCompareOK d.otpHash otp then
      (.error .mismatch, st.put phone { d with attempts := d.attempts + 1 })
    else
      (.ok (), st.del phone)

/-- Embeds `generateRandomOTP` (part_006 lines 109–119): one uniformly drawn
digit per position, concatenated; the draw stream is the explicit `draws`
argument (each draw is taken mod 10, as `rand.Int(_, 10)` yields 0–9). -/
def digitChar (n : Nat) : Char := Char.ofNat (48 + n % 10)

/-- The string built by `generateRandomOTP` for a given draw stream. -/
def generateRandomOTP (draws : Nat → Nat) (length : Nat) : String :=
  String.mk ((List.range length).map (fun i => digitChar (draws i)))

/-! ## String helpers used by the handlers -/

/-- The ASCII whitespace recognised by `strings.TrimSpace` (the Unicode
cases are irrelevant to the inputs at issue). -/
def isSpaceChar (c : Char) : Bool :=
  c == ' ' || c == '\t' || c == '\n' || c == '\r'

/-- Model of `strings.TrimSpace`: drop leading and trailing whitespace. -/
def trimSpace (s : String) : String :=
  String.mk (((s.data.dropWhile isSpaceChar).reverse.dropWhile isSpaceChar).reverse)

/-- Model of Go's `len` on a string: it counts UTF-8 bytes. -/
def goLen (s : String) : Nat :=
  (s.data.map Char.utf8Size).sum

/-- Embeds `isValidPhoneNumber` (auth_handlers.go lines 329–333): the regular
expression `^\+[1-9]\d\x7b1,14\x7d$` — a leading `+`, a first digit in
1–9, then 1 to 14 further digits. -/
def isValidPhoneNumber (phone : String) : Bool :=
  match phone.data with
  | c :: d :: rest =>
    c == '+' && (('1' ≤ d && d ≤ '9') && rest.all Char.isDigit &&
      (1 ≤ rest.length && rest.length ≤ 14))
  | _ => false

/-- Models the `+`-normalisation step of the handlers: the
`strings.HasPrefix(phone, "+")` test holds exactly when the first
character is `+` (a single-byte rune), and a missing prefix is
prepended. -/
def normalizePhone (p : String) : String :=
  if p.data.head? = some '+' then p else "+" ++ p

/-! ## The initiate-OTP handler (`AuthHandlers.InitiateOTP`,
auth_handlers.go lines 84–118).  The decoded request body carries the raw
phone number; the handler trims it, VALIDATES it, and only then
normalises the (already validated) value before calling
`GenerateOTP`. -/

inductive InitiateOutcome where
  /-- Status 400 `INVALID_PHONE`. -/
  | invalidPhone400
  /-- Status 200 "OTP sent successfully" (the reliable-store run; a store failure
  would give 500 `OTP_GENERATION_FAILED` instead and is not modelled). -/
  | otpSent200
  deriving Repr, DecidableEq

/-- Embeds `AuthHandlers.InitiateOTP` on a decoded body: trim, validate, then
normalise, then generate and store the OTP (drawn plaintext `otp`). -/
def InitiateOTPHandler (cfg : OTPConfig) (now : Nat) (otp : String)
    (st : OTPStore) (rawPhone : String) : InitiateOutcome × OTPStore :=
  let phone0 := trimSpace rawPhone
  if ¬ isValidPhoneNumber phone0 then
    (.invalidPhone400, st)
  else
    (.otpSent200, (GenerateOTP cfg now otp st (normalizePhone phone0)).2)

/-! ## The verify-OTP handler (`AuthHandlers.VerifyOTP`, auth_handlers.go
lines 120–200), up to OTP consumption.  Note the order differs from
initiate: here the phone is trimmed, normalised, and then validated; the
candidate OTP is trimmed and its BYTE length checked against the fixed
4–8 window before the store is consulted. -/

inductive VerifyHandlerOutcome where
  /-- Status 400 `INVALID_PHONE`. -/
  | invalidPhone400
  /-- Status 400 `INVALID_OTP` ("Invalid OTP format"). -/
  | invalidOTP400
  /-- Status 401 `INVALID_OTP` ("Invalid or expired OTP"). -/
  | unauthorized401
  /-- Status 200: OTP consumed; the handler goes on to mint and return the token
  pair (modelled separately by the token issuer). -/
  | authenticated200 (phone : String)
  deriving Repr, DecidableEq

/-- The decoded body of a verify-OTP request. -/
structure VerifyOTPReq where
  phoneNumber : String
  otp : String
  deriving Repr, DecidableEq

/-- Embeds `AuthHandlers.VerifyOTP` through the call to `OTPService.VerifyOTP`:
trim both fields, normalise the phone, validate the phone, reject a
trimmed candidate of byte length outside 4–8, and only then consult the
OTP store.  Any service failure maps to 401. -/
def VerifyOTPHandler (cfg : OTPConfig) (now : Nat) (st : OTPStore)
    (req : VerifyOTPReq) : VerifyHandlerOutcome × OTPStore :=
  let phone := normalizePhone (trimSpace req.phoneNumber)
  let otp := trimSpace req.otp
  if ¬ isValidPhoneNumber phone then
    (.invalidPhone400, st)
  else if goLen otp < 4 || goLen otp > 8 then
    (.invalidOTP400, st)
  else
    match VerifyOTP cfg now st phone otp with
    | (.error _, st') => (.unauthorized401, st')
    | (.ok _, st') => (.authenticated200 phone, st')

/-! ## The token issuer (src/unnamed/part_003, `JWTService`) -/

/-- The signing algorithm recorded in a token's header. -/
inductive Alg where
  /-- Method `HS256`, the one the service signs with (an HMAC method). -/
  | hs256
  /-- Any non-HMAC method (the "none" algorithm included) — rejected by the key
  callback in `VerifyToken`. -/
  | nonHmac
  deriving Repr, DecidableEq

/-- Embeds the `service.Claims` payload: custom `phone`/`type`/`jti` fields plus
the registered subject / issued-at / expires-at claims. -/
structure Claims where
  phone : String
  type : String
  jti : String
  subject : String
  issuedAt : Nat
  expiresAt : Nat
  deriving Repr, DecidableEq

/-- A signed token string, modelled by its decoded claims, the algorithm
in its header, and the key its signature verifies under (a signature is
valid exactly for the key that produced it). -/
structure SignedToken where
  claims : Claims
  alg : Alg
  key : String
  deriving Repr, DecidableEq

/-- Embeds `models.TokenPair`. -/
structure TokenPair where
  accessToken : SignedToken
  refreshToken : SignedToken
  tokenType : String
  expiresIn : Nat
  deriving Repr, DecidableEq

/-- Embeds the `JWTService` state: symmetric secret and the two lifetimes. -/
structure JWTService where
  secretKey : String
  accessExpiry : Nat
  refreshExpiry : Nat
  deriving Repr, DecidableEq

/-- Embeds `JWTService.VerifyToken` (part_003 lines 238–256): the key callback
rejects any non-HMAC method; parsing checks the signature against the
service secret; the jwt/v5 validator rejects the token unless the current
time is strictly before `ExpiresAt`.  On success the decoded claims are
returned. -/
def VerifyToken (secret : String) (now : Nat) (tok : SignedToken) : Option Claims :=
  if tok.alg = .hs256 && tok.key == secret && now < tok.claims.expiresAt then
    some tok.claims
  else
    none

/-- Embeds `JWTService.GenerateAccessToken` (part_003 lines 184–236): mints an
access/refresh pair for `phoneNumber` with freshly drawn identifiers
`accessJTI`, `refreshJTI` and a freshly drawn rotation family `familyID`
(the three `uuid.New()` draws, passed in explicitly), both tokens HS256 —
signed with the service secret, sharing `Subject = phoneNumber` and
`IssuedAt = now`, with independent expiries. -/
def GenerateAccessToken (svc : JWTService) (now : Nat)
    (phoneNumber accessJTI refreshJTI familyID : String) : TokenPair × String :=
  ({ accessToken :=
      { claims :=
          { phone := phoneNumber, type := "access", jti := accessJTI
            subject := phoneNumber, issuedAt := now
            expiresAt := now + svc.accessExpiry }
        alg := .hs256, key := svc.secretKey }
     refreshToken :=
      { claims :=
          { phone := phoneNumber, type := "refresh", jti := refreshJTI
            subject := phoneNumber, issuedAt := now
            expiresAt := now + svc.refreshExpiry }
        alg := .hs256, key := svc.secretKey }
     tokenType := "Bearer"
     expiresIn := svc.accessExpiry }, familyID)

/-- Embeds `JWTService.GenerateAccessTokenWithFamily` (part_003 lines 272–328):
as `GenerateAccessToken` but reusing the supplied `familyID`; an empty
supplied family falls back to the fresh draw `freshFamilyID`. -/
def GenerateAccessTokenWithFamily (svc : JWTService) (now : Nat)
    (phoneNumber familyID freshFamilyID accessJTI refreshJTI : String) :
    TokenPair × String :=
  let fam := if familyID = "" then freshFamilyID else familyID
  GenerateAccessToken svc now phoneNumber accessJTI refreshJTI fam

/-- Embeds `JWTService.RefreshTokens` (part_003 lines 258–270): verify the
presented token, require kind `refresh`, then mint a new pair carrying
the given family. -/
def RefreshTokens (svc : JWTService) (now : Nat) (tok : SignedToken)
    (familyID freshFamilyID accessJTI refreshJTI : String) :
    Option (TokenPair × String) :=
  match VerifyToken svc.secretKey now tok with
  | none => none
  | some claims =>
    if claims.type ≠ "refresh" then none
    else some (GenerateAccessTokenWithFamily svc now claims.phone familyID
      freshFamilyID accessJTI refreshJTI)

/-! ## The refresh-token ledger
(internal/service/refresh_token_service.go over the DynamoDB repository
in src/unnamed/part_002). -/

/-- Embeds `models.RefreshTokenData`. -/
structure RefreshTokenData where
  jti : String
  userID : String
  phone : String
  familyID : String
  createdAt : Nat
  expiresAt : Nat
  revoked : Bool
  deriving Repr, DecidableEq

/-- The ledger table: `REFRESH_TOKEN#<jti>` records as an associative
list (kept enumerable because `RevokeFamily` scans it), plus the
`REVOKED_TOKEN#<jti>` marker rows. -/
structure LedgerState where
  tokens : List (String × RefreshTokenData)
  markers : List String
  deriving Repr, DecidableEq

/-- Point lookup in the token table (`RefreshTokenRepository.Get`,
`nil` item ↦ `none`). -/
def ledgerGet (l : List (String × RefreshTokenData)) (jti : String) :
    Option RefreshTokenData :=
  (l.find? (fun p => p.1 == jti)).map (·.2)

/-- Unconditional upsert in the token table
(`RefreshTokenRepository.Store` is a plain `PutItem`). -/
def ledgerPut (l : List (String × RefreshTokenData)) (jti : String)
    (d : RefreshTokenData) : List (String × RefreshTokenData) :=
  (jti, d) :: l.filter (fun p => !(p.1 == jti))

/-- Embeds `RefreshTokenService.Store` (refresh_token_service.go lines 26–38):
builds a record with `Revoked: false` unconditionally and upserts it. -/
def RTLedger.store (st : LedgerState) (now : Nat)
    (jti userID phone familyID : String) (expiresAt : Nat) : LedgerState :=
  { st with
    tokens := ledgerPut st.tokens jti
      { jti := jti, userID := userID, phone := phone, familyID := familyID
        createdAt := now, expiresAt := expiresAt, revoked := false } }

/-- Embeds `RefreshTokenService.Revoke` (lines 44–61): fetch the record (failing
if absent), re-store it with `Revoked: true`, and write the
`REVOKED_TOKEN#` marker (`MarkRevoked` in part_002). -/
def RTLedger.revoke (st : LedgerState) (jti : String) :
    Except Unit LedgerState :=
  match ledgerGet st.tokens jti with
  | none => .error ()
  | some d =>
    .ok { tokens := ledgerPut st.tokens jti { d with revoked := true }
          markers := jti :: st.markers }

/-- Embeds `RefreshTokenService.IsRevoked` (over
`RefreshTokenRepository.IsRevoked`, part_002 lines 105–119): marker
presence only.  This is the reliable-store result; the handler model
below takes the possibly-failing call result explicitly. -/
def RTLedger.isRevoked (st : LedgerState) (jti : String) : Bool :=
  st.markers.contains jti

/-- Embeds `RefreshTokenService.RevokeFamily` (lines 67–80): fetch the list of
records sharing the family (`GetByFamilyID` scan over the initial state),
then revoke each; a failed revoke is logged and skipped. -/
def RTLedger.revokeFamily (st : LedgerState) (familyID : String) : LedgerState :=
  let members := st.tokens.filter (fun p => p.2.familyID == familyID)
  members.foldl
    (fun acc p =>
      match RTLedger.revoke acc p.2.jti with
      | .ok s => s
      | .error _ => acc)
    st

/-- The ledger operations the service exposes (claim C8 quantifies over
these). -/
inductive LedgerOp where
  | store (now : Nat) (jti userID phone familyID : String) (expiresAt : Nat)
  | revoke (jti : String)
  | revokeFamily (familyID : String)
  deriving Repr, DecidableEq

/-- One service operation applied to the ledger (a failed `Revoke`
leaves the store untouched). -/
def applyLedgerOp (st : LedgerState) : LedgerOp → LedgerState
  | .store now jti u p f e => RTLedger.store st now jti u p f e
  | .revoke j =>
    match RTLedger.revoke st j with
    | .ok s => s
    | .error _ => st
  | .revokeFamily f => RTLedger.revokeFamily st f

/-! ## The refresh handler (`AuthHandlers.RefreshToken`, auth_handlers.go
lines 202–285) -/

inductive RefreshOutcome where
  /-- Status 400 `MISSING_TOKEN`. -/
  | missingToken400
  /-- Status 401 `INVALID_TOKEN`. -/
  | invalidToken401
  /-- Status 401 `INVALID_TOKEN_TYPE`. -/
  | wrongKind401
  /-- Status 401 `TOKEN_REVOKED`. -/
  | revoked401
  /-- Status 500 `TOKEN_GENERATION_FAILED`. -/
  | genFailed500
  /-- Status 200 with the fresh pair. -/
  | ok200 (pair : TokenPair)
  deriving Repr, DecidableEq

/-- Embeds `AuthHandlers.RefreshToken` on a decoded body.  `req` is the
presented token (`none` for an empty `refresh_token` field).
`revokedLookup` is the result the `IsRevoked` call returned (`.error ()`
models an infrastructure failure of that lookup; in a reliable run it is
`.ok (RTLedger.isRevoked st jti)`).  `accessJTI`, `refreshJTI` and
`freshFamilyID` are the `uuid.New()` draws of the minting step.  The
handler: verifies signature and kind; rejects as revoked only when the
lookup succeeded AND reported `true`; fetches the prior record (a miss
merely forfeits the family); revokes the presented token when its record
was found; mints the new pair via `RefreshTokens`; verifies the new
refresh token to extract its `jti`; stores the new record (a store
failure is logged and ignored — the reliable store always succeeds
here). -/
def RefreshHandler (svc : JWTService) (now : Nat) (st : LedgerState)
    (req : Option SignedToken) (revokedLookup : Except Unit Bool)
    (accessJTI refreshJTI freshFamilyID : String) :
    RefreshOutcome × LedgerState :=
  match req with
  | none => (.missingToken400, st)
  | some tok =>
    match VerifyToken svc.secretKey now tok with
    | none => (.invalidToken401, st)
    | some claims =>
      if claims.type ≠ "refresh" then (.wrongKind401, st)
      else if revokedLookup matches .ok true then (.revoked401, st)
      else
        let tokenData := ledgerGet st.tokens claims.jti
        let st1 :=
          match tokenData with
          | some _ =>
            match RTLedger.revoke st claims.jti with
            | .ok s => s
            | .error _ => st
          | none => st
        let familyID :=
          match tokenData with
          | some d => d.familyID
          | none => ""
        match RefreshTokens svc now tok familyID freshFamilyID accessJTI refreshJTI with
        | none => (.genFailed500, st1)
        | some (pair, newFam) =>
          match VerifyToken svc.secretKey now pair.refreshToken with
          | none => (.genFailed500, st1)
          | some newClaims =>
            (.ok200 pair,
              RTLedger.store st1 now newClaims.jti claims.phone claims.phone
                newFam newClaims.expiresAt)

/-! ## Helper lemmas about the OTP state machine -/

/-- Iterated verification: `n` consecutive `VerifyOTP` calls with the
same candidate, threading the store. -/
def iterateVerify (cfg : OTPConfig) (now : Nat) (phone cand : String) :
    Nat → OTPStore → OTPStore
  | 0, st => st
  | n + 1, st => iterateVerify cfg now phone cand n (VerifyOTP cfg now st phone cand).2

theorem iterateVerify_wrong (cfg : OTPConfig) (now : Nat) (phone cand : String)
    (hash0 : String) (created exp : Nat)
    (hexp : ¬ now > exp) (hcmp : bcryptCompareOK hash0 cand = false) :
    ∀ (n : Nat) (a : Int) (st : OTPStore),
      st phone = some ⟨hash0, phone, a, created, exp⟩ →
      a + n ≤ cfg.maxAttempts →
      (iterateVerify cfg now phone cand n st) phone
        = some ⟨hash0, phone, a + n, created, exp⟩ := by
  intro n
  induction n with
  | zero =>
    intro a st hst _
    simpa [iterateVerify] using hst
  | succ k ih =>
    intro a st hst hle
    have hlt : a < cfg.maxAttempts := by
      have : (k : Int) + 1 = ((k + 1 : Nat) : Int) := by push_cast; ring
      omega
    have hstep : VerifyOTP cfg now st phone cand
        = (.error .mismatch, st.put phone ⟨hash0, phone, a + 1, created, exp⟩) := by
      simp [VerifyOTP, hst, hexp, not_le.2 hlt, hcmp]
    have hput : (st.put phone ⟨hash0, phone, a + 1, created, exp⟩) phone
        = some ⟨hash0, phone, a + 1, created, exp⟩ := OTPStore.put_same ..
    have := ih (a + 1) (st.put phone ⟨hash0, phone, a + 1, created, exp⟩) hput
      (by push_cast at hle ⊢; omega)
    simpa [iterateVerify, hstep, add_assoc, add_comm, add_left_comm,
      show a + 1 + (k : Int) = a + ((k : Int) + 1) by ring] using this

/-! ## Claim theorems: the OTP manager -/

/-- C1.  For every phone number and candidate, OTP verification follows
exactly this decision order: not-found when no record exists; expired
(deleting the record) when the current time is past expiry; attempts
exceeded (deleting the record) when the stored counter is at least the
configured maximum; otherwise the hash comparison — on mismatch the
counter is incremented and persisted and the call fails, on match the
record is deleted and the call succeeds. -/
theorem verifyOTP_decision_order (cfg : OTPConfig) (now : Nat) (st : OTPStore)
    (phone otp : String) :
    (st phone = none →
      VerifyOTP cfg now st phone otp = (.error .notFound, st))
  ∧ (∀ d, st phone = some d → now > d.expiresAt →
      VerifyOTP cfg now st phone otp = (.error .expired, st.del phone))
  ∧ (∀ d, st phone = some d → ¬ now > d.expiresAt →
      d.attempts ≥ cfg.maxAttempts →
      VerifyOTP cfg now st phone otp = (.error .attemptsExceeded, st.del phone))
  ∧ (∀ d, st phone = some d → ¬ now > d.expiresAt →
      d.attempts < cfg.maxAttempts → bcryptCompareOK d.otpHash otp = false →
      VerifyOTP cfg now st phone otp
        = (.error .mismatch, st.put phone { d with attempts := d.attempts + 1 }))
  ∧ (∀ d, st phone = some d → ¬ now > d.expiresAt →
      d.attempts < cfg.maxAttempts → bcryptCompareOK d.otpHash otp = true →
      VerifyOTP cfg now st phone otp = (.ok (), st.del phone)) := by
  refine ⟨?_, ?_, ?_, ?_, ?_⟩
  · intro h; simp [VerifyOTP, h]
  · intro d hd hexp; simp [VerifyOTP, hd, hexp]
  · intro d hd hexp hatt; simp [VerifyOTP, hd, hexp, hatt]
  · intro d hd hexp hatt hcmp; simp [VerifyOTP, hd, hexp, not_le.2 hatt, hcmp]
  · intro d hd hexp hatt hcmp; simp [VerifyOTP, hd, hexp, not_le.2 hatt, hcmp]

/-- Witness for C1: the success branch, evaluated on a freshly issued
record for a concrete phone number. -/
theorem verifyOTP_decision_order_witness :
    VerifyOTP ⟨6, 600, 5⟩ 0
        ((GenerateOTP ⟨6, 600, 5⟩ 0 "123456" OTPStore.empty "+15551234567").2)
        "+15551234567" "123456"
      = (.ok (),
         ((GenerateOTP ⟨6, 600, 5⟩ 0 "123456" OTPStore.empty "+15551234567").2).del
           "+15551234567") :=
  (verifyOTP_decision_order ⟨6, 600, 5⟩ 0
      ((GenerateOTP ⟨6, 600, 5⟩ 0 "123456" OTPStore.empty "+15551234567").2)
      "+15551234567" "123456").2.2.2.2
    ⟨bcryptHash "123456", "+15551234567", 0, 0, 600⟩
    rfl (by decide) (by decide) (bcryptCompareOK_self "123456")

/-- C3.  Issuing an OTP and immediately verifying with the correct code
succeeds; the record is deleted by that success, so a second verification
with the same code fails (not-found, surfaced as an authentication error
at the API boundary). -/
theorem generate_then_verify_single_use (cfg : OTPConfig) (now : Nat)
    (st : OTPStore) (phone otp : String) (hmax : 0 < cfg.maxAttempts) :
    ((VerifyOTP cfg now (GenerateOTP cfg now otp st phone).2 phone otp).1 = .ok ())
  ∧ ((VerifyOTP cfg now (GenerateOTP cfg now otp st phone).2 phone otp).2 phone
      = none)
  ∧ ((VerifyOTP cfg now
        (VerifyOTP cfg now (GenerateOTP cfg now otp st phone).2 phone otp).2
        phone otp).1 = .error .notFound) := by
  have hput : (GenerateOTP cfg now otp st phone).2 phone
      = some ⟨bcryptHash otp, phone, 0, now, now + cfg.expiry⟩ :=
    OTPStore.put_same ..
  have hexp : ¬ now > now + cfg.expiry := by omega
  have hatt : ¬ ((0 : Int) ≥ cfg.maxAttempts) := not_le.2 hmax
  have h1 : VerifyOTP cfg now (GenerateOTP cfg now otp st phone).2 phone otp
      = (.ok (), ((GenerateOTP cfg now otp st phone).2).del phone) := by
    simp [VerifyOTP, hput, hexp, hatt, bcryptCompareOK_self]
  refine ⟨by simp [h1], ?_, ?_⟩
  · simp [h1, OTPStore.del_same]
  · rw [h1]
    simp [VerifyOTP, OTPStore.del_same]

/-- Witness for C3: a concrete six-digit OTP issued and verified twice. -/
theorem generate_then_verify_single_use_witness :
    (0 : Int) < 5
  ∧ (((VerifyOTP ⟨6, 600, 5⟩ 0
        (GenerateOTP ⟨6, 600, 5⟩ 0 "123456" OTPStore.empty "+15551234567").2
        "+15551234567" "123456").1 = .ok ())
    ∧ (((VerifyOTP ⟨6, 600, 5⟩ 0
        (GenerateOTP ⟨6, 600, 5⟩ 0 "123456" OTPStore.empty "+15551234567").2
        "+15551234567" "123456").2 "+15551234567") = none)
    ∧ ((VerifyOTP ⟨6, 600, 5⟩ 0
        (VerifyOTP ⟨6, 600, 5⟩ 0
          (GenerateOTP ⟨6, 600, 5⟩ 0 "123456" OTPStore.empty "+15551234567").2
          "+15551234567" "123456").2
        "+15551234567" "123456").1 = .error .notFound)) :=
  ⟨by decide,
   generate_then_verify_single_use ⟨6, 600, 5⟩ 0 OTPStore.empty
     "+15551234567" "123456" (by decide)⟩

/-- C4, counterexample.  With `OTP_MAX_ATTEMPTS = 1`, after exactly one
failed verification the record is NOT deleted: it is re-stored with the
attempt counter at 1.  Deletion only happens on the next verification
call.  This refutes "after exactly OTP_MAX_ATTEMPTS consecutive failed
verifications the record is deleted". -/
theorem verify_exhaustion_no_immediate_delete :
    ((VerifyOTP ⟨4, 600, 1⟩ 0
        (GenerateOTP ⟨4, 600, 1⟩ 0 "1234" OTPStore.empty "+15551234567").2
        "+15551234567" "0000").1 = .error .mismatch)
  ∧ ((VerifyOTP ⟨4, 600, 1⟩ 0
        (GenerateOTP ⟨4, 600, 1⟩ 0 "1234" OTPStore.empty "+15551234567").2
        "+15551234567" "0000").2 "+15551234567"
      = some ⟨bcryptHash "1234", "+15551234567", 1, 0, 600⟩) := by
  constructor <;> rfl

/-- C4, amended.  Each verification with a wrong candidate increments the
attempt counter by one; after exactly `OTP_MAX_ATTEMPTS` consecutive
failed verifications the record still exists with its counter at the
maximum, and the NEXT verification — with any candidate, the correct
code included — fails with an authentication error and deletes the
record; every verification after that fails as not-found. -/
theorem verify_attempt_exhaustion (cfg : OTPConfig) (now : Nat) (st : OTPStore)
    (phone otp wrong : String) (m : Nat)
    (hm : cfg.maxAttempts = (m : Int)) (hw : wrong ≠ otp) :
    (∀ (d : OTPData) (stx : OTPStore), stx phone = some d →
        ¬ now > d.expiresAt → d.attempts < cfg.maxAttempts →
        bcryptCompareOK d.otpHash wrong = false →
        (VerifyOTP cfg now stx phone wrong).1 = .error .mismatch
          ∧ (VerifyOTP cfg now stx phone wrong).2 phone
              = some { d with attempts := d.attempts + 1 })
  ∧ ((iterateVerify cfg now phone wrong m
        (GenerateOTP cfg now otp st phone).2) phone
      = some ⟨bcryptHash otp, phone, (m : Int), now, now + cfg.expiry⟩)
  ∧ (∀ c,
      ((VerifyOTP cfg now
          (iterateVerify cfg now phone wrong m (GenerateOTP cfg now otp st phone).2)
          phone c).1 = .error .attemptsExceeded)
      ∧ ((VerifyOTP cfg now
          (iterateVerify cfg now phone wrong m (GenerateOTP cfg now otp st phone).2)
          phone c).2 phone = none))
  ∧ (∀ c c',
      (VerifyOTP cfg now
        (VerifyOTP cfg now
          (iterateVerify cfg now phone wrong m (GenerateOTP cfg now otp st phone).2)
          phone c).2
        phone c').1 = .error .notFound) := by
  have hexp : ¬ now > now + cfg.expiry := by omega
  have hcmp : bcryptCompareOK (bcryptHash otp) wrong = false :=
    bcryptCompareOK_ne (fun h => hw h.symm)
  have hiter :
      (iterateVerify cfg now phone wrong m (GenerateOTP cfg now otp st phone).2) phone
        = some ⟨bcryptHash otp, phone, (m : Int), now, now + cfg.expiry⟩ := by
    have := iterateVerify_wrong cfg now phone wrong (bcryptHash otp) now
      (now + cfg.expiry) hexp hcmp m 0 (GenerateOTP cfg now otp st phone).2
      (OTPStore.put_same ..) (by rw [hm]; omega)
    simpa using this
  have hstep : ∀ c, VerifyOTP cfg now
      (iterateVerify cfg now phone wrong m (GenerateOTP cfg now otp st phone).2)
      phone c
      = (.error .attemptsExceeded,
         (iterateVerify cfg now phone wrong m
           (GenerateOTP cfg now otp st phone).2).del phone) := by
    intro c
    have hge : cfg.maxAttempts ≤ (m : Int) := by rw [hm]
    simp [VerifyOTP, hiter, hexp, hge]
  refine ⟨?_, hiter, ?_, ?_⟩
  · intro d stx hst hex hat hc
    constructor <;> simp [VerifyOTP, hst, hex, not_le.2 hat, hc, OTPStore.put_same]
  · intro c
    constructor
    · simp [hstep c]
    · simp [hstep c, OTPStore.del_same]
  · intro c c'
    rw [hstep c]
    simp [VerifyOTP, OTPStore.del_same]

/-- Witness for C4's amended theorem: max attempts 2, a concrete wrong
candidate, then the correct code rejected. -/
theorem verify_attempt_exhaustion_witness :
    ((2 : Int) = ((2 : Nat) : Int) ∧ "0000" ≠ "1234")
  ∧ (((iterateVerify ⟨4, 600, 2⟩ 0 "+15551234567" "0000" 2
        (GenerateOTP ⟨4, 600, 2⟩ 0 "1234" OTPStore.empty "+15551234567").2)
        "+15551234567"
      = some ⟨bcryptHash "1234", "+15551234567", ((2 : Nat) : Int), 0, 600⟩)
    ∧ ((VerifyOTP ⟨4, 600, 2⟩ 0
        (iterateVerify ⟨4, 600, 2⟩ 0 "+15551234567" "0000" 2
          (GenerateOTP ⟨4, 600, 2⟩ 0 "1234" OTPStore.empty "+15551234567").2)
        "+15551234567" "1234").1 = .error .attemptsExceeded)) :=
  ⟨⟨by decide, by decide⟩,
   (verify_attempt_exhaustion ⟨4, 600, 2⟩ 0 OTPStore.empty "+15551234567"
      "1234" "0000" 2 (by decide) (by decide)).2.1,
   ((verify_attempt_exhaustion ⟨4, 600, 2⟩ 0 OTPStore.empty "+15551234567"
      "1234" "0000" 2 (by decide) (by decide)).2.2.1 "1234").1⟩

/-- C6.  Issuing a new OTP while a prior unconsumed record exists
overwrites it (last-issued-wins): afterwards the store holds only the
latest record, verifying with the latest code succeeds, and verifying
with the previous code fails with a mismatch. -/
theorem generate_overwrites_previous (cfg : OTPConfig) (now : Nat)
    (st : OTPStore) (phone otp1 otp2 : String)
    (hmax : 0 < cfg.maxAttempts) (hne : otp1 ≠ otp2) :
    ((GenerateOTP cfg now otp2 (GenerateOTP cfg now otp1 st phone).2 phone).2 phone
      = some ⟨bcryptHash otp2, phone, 0, now, now + cfg.expiry⟩)
  ∧ ((VerifyOTP cfg now
        (GenerateOTP cfg now otp2 (GenerateOTP cfg now otp1 st phone).2 phone).2
        phone otp2).1 = .ok ())
  ∧ ((VerifyOTP cfg now
        (GenerateOTP cfg now otp2 (GenerateOTP cfg now otp1 st phone).2 phone).2
        phone otp1).1 = .error .mismatch) := by
  have hput : (GenerateOTP cfg now otp2 (GenerateOTP cfg now otp1 st phone).2 phone).2
      phone = some ⟨bcryptHash otp2, phone, 0, now, now + cfg.expiry⟩ :=
    OTPStore.put_same ..
  have hexp : ¬ now > now + cfg.expiry := by omega
  have hatt : ¬ ((0 : Int) ≥ cfg.maxAttempts) := not_le.2 hmax
  have hcmp : bcryptCompareOK (bcryptHash otp2) otp1 = false :=
    bcryptCompareOK_ne (Ne.symm hne)
  refine ⟨hput, ?_, ?_⟩
  · simp [VerifyOTP, hput, hexp, hatt, bcryptCompareOK_self]
  · simp [VerifyOTP, hput, hexp, hatt, hcmp]

/-- Witness for C6: two concrete codes for the same phone. -/
theorem generate_overwrites_previous_witness :
    (0 : Int) < 5 ∧ "111111" ≠ "222222"
  ∧ ((VerifyOTP ⟨6, 600, 5⟩ 0
        (GenerateOTP ⟨6, 600, 5⟩ 0 "222222"
          (GenerateOTP ⟨6, 600, 5⟩ 0 "111111" OTPStore.empty "+15551234567").2
          "+15551234567").2
        "+15551234567" "222222").1 = .ok ())
  ∧ ((VerifyOTP ⟨6, 600, 5⟩ 0
        (GenerateOTP ⟨6, 600, 5⟩ 0 "222222"
          (GenerateOTP ⟨6, 600, 5⟩ 0 "111111" OTPStore.empty "+15551234567").2
          "+15551234567").2
        "+15551234567" "111111").1 = .error .mismatch) :=
  ⟨by decide, by decide,
   (generate_overwrites_previous ⟨6, 600, 5⟩ 0 OTPStore.empty "+15551234567"
      "111111" "222222" (by decide) (by decide)).2.1,
   (generate_overwrites_previous ⟨6, 600, 5⟩ 0 OTPStore.empty "+15551234567"
      "111111" "222222" (by decide) (by decide)).2.2⟩

/-! ## Claim theorems: the token issuer -/

/-- C5.  Verifying the access token of a freshly issued pair succeeds and
yields the issuing subject while the current time is before the token's
expiry (`IssuedAt + AccessExpiry`); from the expiry onwards verification
fails. -/
theorem access_token_roundtrip (svc : JWTService) (now t : Nat)
    (phone accessJTI refreshJTI familyID : String) :
    (t < now + svc.accessExpiry →
      VerifyToken svc.secretKey t
          (GenerateAccessToken svc now phone accessJTI refreshJTI familyID).1.accessToken
        = some ⟨phone, "access", accessJTI, phone, now, now + svc.accessExpiry⟩)
  ∧ (now + svc.accessExpiry ≤ t →
      VerifyToken svc.secretKey t
          (GenerateAccessToken svc now phone accessJTI refreshJTI familyID).1.accessToken
        = none) := by
  constructor
  · intro h
    simp [VerifyToken, GenerateAccessToken, h]
  · intro h
    simp [VerifyToken, GenerateAccessToken, not_lt.2 h]

/-- Witness for C5: a concrete subject verified one second before expiry
and rejected at expiry. -/
theorem access_token_roundtrip_witness :
    (899 < 0 + 900
      ∧ VerifyToken "secret-key-0123456789abcdef01234" 899
          (GenerateAccessToken ⟨"secret-key-0123456789abcdef01234", 900, 604800⟩ 0
            "+15551234567" "jti-a" "jti-r" "fam-1").1.accessToken
        = some ⟨"+15551234567", "access", "jti-a", "+15551234567", 0, 0 + 900⟩)
  ∧ (0 + 900 ≤ 900
      ∧ VerifyToken "secret-key-0123456789abcdef01234" 900
          (GenerateAccessToken ⟨"secret-key-0123456789abcdef01234", 900, 604800⟩ 0
            "+15551234567" "jti-a" "jti-r" "fam-1").1.accessToken
        = none) :=
  ⟨⟨by decide,
    (access_token_roundtrip ⟨"secret-key-0123456789abcdef01234", 900, 604800⟩ 0 899
      "+15551234567" "jti-a" "jti-r" "fam-1").1 (by decide)⟩,
   ⟨by decide,
    (access_token_roundtrip ⟨"secret-key-0123456789abcdef01234", 900, 604800⟩ 0 900
      "+15551234567" "jti-a" "jti-r" "fam-1").2 (by decide)⟩⟩

/-! ## Claim theorems: the refresh flow -/

/-- C2.  A refresh call presenting a valid, unrevoked refresh-kind token
whose ledger record exists returns 200 with a refresh token carrying the
freshly drawn identifier `rJ` — distinct from the presented token's
identifier whenever the draw is fresh — and revokes the presented token
as part of the rotation, so a subsequent refresh reusing the presented
token (with the revocation lookup now reading the updated marker) is
rejected as revoked. -/
theorem refresh_rotates_and_revokes (svc : JWTService) (now : Nat)
    (st : LedgerState) (tok : SignedToken) (aJ rJ fam aJ2 rJ2 fam2 : String)
    (halg : tok.alg = .hs256) (hkey : tok.key = svc.secretKey)
    (hexp : now < tok.claims.expiresAt) (hkind : tok.claims.type = "refresh")
    (hrexp : 0 < svc.refreshExpiry) (hfresh : rJ ≠ tok.claims.jti)
    (hrec : (ledgerGet st.tokens tok.claims.jti).isSome = true) :
    ∃ pair st',
      RefreshHandler svc now st (some tok) (.ok false) aJ rJ fam
        = (.ok200 pair, st')
      ∧ pair.refreshToken.claims.jti = rJ
      ∧ pair.refreshToken.claims.jti ≠ tok.claims.jti
      ∧ RTLedger.isRevoked st' tok.claims.jti = true
      ∧ (RefreshHandler svc now st' (some tok)
          (.ok (RTLedger.isRevoked st' tok.claims.jti)) aJ2 rJ2 fam2).1
            = .revoked401 := by
  obtain ⟨d, hd⟩ := Option.isSome_iff_exists.mp hrec
  have hver : VerifyToken svc.secretKey now tok = some tok.claims := by
    simp [VerifyToken, halg, hkey, hexp]
  have hexp2 : now < now + svc.refreshExpiry := by omega
  have hrun : RefreshHandler svc now st (some tok) (.ok false) aJ rJ fam
      = (.ok200 (GenerateAccessToken svc now tok.claims.phone aJ rJ
            (if d.familyID = "" then fam else d.familyID)).1,
         RTLedger.store
           ⟨ledgerPut st.tokens tok.claims.jti { d with revoked := true },
            tok.claims.jti :: st.markers⟩
           now rJ tok.claims.phone tok.claims.phone
           (if d.familyID = "" then fam else d.familyID)
           (now + svc.refreshExpiry)) := by
    simp [RefreshHandler, RefreshTokens, GenerateAccessTokenWithFamily,
      GenerateAccessToken, VerifyToken, RTLedger.revoke, halg, hkey, hexp,
      hexp2, hkind, hd]
  refine ⟨_, _, hrun, rfl, by simpa using hfresh, ?_, ?_⟩
  · simp [RTLedger.isRevoked, RTLedger.store]
  · have hm : RTLedger.isRevoked
        (RTLedger.store
          ⟨ledgerPut st.tokens tok.claims.jti { d with revoked := true },
           tok.claims.jti :: st.markers⟩
          now rJ tok.claims.phone tok.claims.phone
          (if d.familyID = "" then fam else d.familyID)
          (now + svc.refreshExpiry)) tok.claims.jti = true := by
      simp [RTLedger.isRevoked, RTLedger.store]
    rw [hm]
    simp [RefreshHandler, hver, hkind]

/-- Witness for C2: a concrete ledger holding the presented token's
record, rotated once and replayed. -/
theorem refresh_rotates_and_revokes_witness :
    ∃ pair st',
      RefreshHandler ⟨"secret-key-0123456789abcdef01234", 900, 604800⟩ 0
          ⟨[("jti-old",
             ⟨"jti-old", "+15551234567", "+15551234567", "fam-1", 0, 604800, false⟩)],
            []⟩
          (some ⟨⟨"+15551234567", "refresh", "jti-old", "+15551234567", 0, 604800⟩,
            .hs256, "secret-key-0123456789abcdef01234"⟩)
          (.ok false) "jti-a2" "jti-r2" "fam-x"
        = (.ok200 pair, st')
      ∧ pair.refreshToken.claims.jti = "jti-r2"
      ∧ pair.refreshToken.claims.jti
          ≠ (Claims.mk "+15551234567" "refresh" "jti-old" "+15551234567" 0 604800).jti
      ∧ RTLedger.isRevoked st'
          (Claims.mk "+15551234567" "refresh" "jti-old" "+15551234567" 0 604800).jti
            = true
      ∧ (RefreshHandler ⟨"secret-key-0123456789abcdef01234", 900, 604800⟩ 0 st'
          (some ⟨⟨"+15551234567", "refresh", "jti-old", "+15551234567", 0, 604800⟩,
            .hs256, "secret-key-0123456789abcdef01234"⟩)
          (.ok (RTLedger.isRevoked st'
            (Claims.mk "+15551234567" "refresh" "jti-old" "+15551234567" 0 604800).jti))
          "jti-a3" "jti-r3" "fam-y").1 = .revoked401 :=
  refresh_rotates_and_revokes
    ⟨"secret-key-0123456789abcdef01234", 900, 604800⟩ 0
    ⟨[("jti-old",
       ⟨"jti-old", "+15551234567", "+15551234567", "fam-1", 0, 604800, false⟩)], []⟩
    ⟨⟨"+15551234567", "refresh", "jti-old", "+15551234567", 0, 604800⟩,
      .hs256, "secret-key-0123456789abcdef01234"⟩
    "jti-a2" "jti-r2" "fam-x" "jti-a3" "jti-r3" "fam-y"
    rfl rfl (by decide) rfl (by decide) (by decide) (by decide)

/-- C9.  When the revocation-marker lookup fails, the refresh handler
treats the presented token as not revoked and rotation proceeds to a 200
response; the `TOKEN_REVOKED` rejection is produced only when the lookup
succeeded and reported `true`. -/
theorem refresh_failed_revocation_lookup_fails_open (svc : JWTService)
    (now : Nat) (st : LedgerState) (tok : SignedToken) (aJ rJ fam : String)
    (halg : tok.alg = .hs256) (hkey : tok.key = svc.secretKey)
    (hexp : now < tok.claims.expiresAt) (hkind : tok.claims.type = "refresh")
    (hrexp : 0 < svc.refreshExpiry) :
    (∃ pair st',
        RefreshHandler svc now st (some tok) (.error ()) aJ rJ fam
          = (.ok200 pair, st'))
  ∧ (∀ rc : Except Unit Bool,
      (RefreshHandler svc now st (some tok) rc aJ rJ fam).1 = .revoked401 →
        rc = .ok true) := by
  have hexp2 : now < now + svc.refreshExpiry := by omega
  have hproceed : ∀ rc : Except Unit Bool, (rc matches .ok true) = false →
      ∃ pair st', RefreshHandler svc now st (some tok) rc aJ rJ fam
        = (.ok200 pair, st') := by
    intro rc hrc
    cases hd : ledgerGet st.tokens tok.claims.jti with
    | none =>
      have h : RefreshHandler svc now st (some tok) rc aJ rJ fam
          = (.ok200 (GenerateAccessToken svc now tok.claims.phone aJ rJ fam).1,
             RTLedger.store st now rJ tok.claims.phone tok.claims.phone fam
               (now + svc.refreshExpiry)) := by
        simp [RefreshHandler, RefreshTokens, GenerateAccessTokenWithFamily,
          GenerateAccessToken, VerifyToken, RTLedger.revoke, halg, hkey, hexp,
          hexp2, hkind, hd, hrc]
      exact ⟨_, _, h⟩
    | some d =>
      have h : RefreshHandler svc now st (some tok) rc aJ rJ fam
          = (.ok200 (GenerateAccessToken svc now tok.claims.phone aJ rJ
                (if d.familyID = "" then fam else d.familyID)).1,
             RTLedger.store
               ⟨ledgerPut st.tokens tok.claims.jti { d with revoked := true },
                tok.claims.jti :: st.markers⟩
               now rJ tok.claims.phone tok.claims.phone
               (if d.familyID = "" then fam else d.familyID)
               (now + svc.refreshExpiry)) := by
        simp [RefreshHandler, RefreshTokens, GenerateAccessTokenWithFamily,
          GenerateAccessToken, VerifyToken, RTLedger.revoke, halg, hkey, hexp,
          hexp2, hkind, hd, hrc]
      exact ⟨_, _, h⟩
  constructor
  · exact hproceed (.error ()) rfl
  · intro rc hrev
    match rc with
    | .ok true => rfl
    | .ok false =>
      obtain ⟨pair, st', h⟩ := hproceed (.ok false) rfl
      rw [h] at hrev
      exact absurd hrev (by simp)
    | .error () =>
      obtain ⟨pair, st', h⟩ := hproceed (.error ()) rfl
      rw [h] at hrev
      exact absurd hrev (by simp)

/-- Witness for C9: a concrete failing lookup result still yields 200,
on an empty ledger. -/
theorem refresh_failed_revocation_lookup_fails_open_witness :
    (∃ pair st',
        RefreshHandler ⟨"secret-key-0123456789abcdef01234", 900, 604800⟩ 0
            ⟨[], []⟩
            (some ⟨⟨"+15551234567", "refresh", "jti-old", "+15551234567", 0, 604800⟩,
              .hs256, "secret-key-0123456789abcdef01234"⟩)
            (.error ()) "jti-a2" "jti-r2" "fam-x"
          = (.ok200 pair, st'))
  ∧ (∀ rc : Except Unit Bool,
      (RefreshHandler ⟨"secret-key-0123456789abcdef01234", 900, 604800⟩ 0
          ⟨[], []⟩
          (some ⟨⟨"+15551234567", "refresh", "jti-old", "+15551234567", 0, 604800⟩,
            .hs256, "secret-key-0123456789abcdef01234"⟩)
          rc "jti-a2" "jti-r2" "fam-x").1 = .revoked401 →
        rc = .ok true) :=
  refresh_failed_revocation_lookup_fails_open
    ⟨"secret-key-0123456789abcdef01234", 900, 604800⟩ 0 ⟨[], []⟩
    ⟨⟨"+15551234567", "refresh", "jti-old", "+15551234567", 0, 604800⟩,
      .hs256, "secret-key-0123456789abcdef01234"⟩
    "jti-a2" "jti-r2" "fam-x" rfl rfl (by decide) rfl (by decide)

/-! ## Claim theorems: phone-number validation in the initiate handler -/

theorem char_le_iff (a b : Char) : a ≤ b ↔ a.val.toNat ≤ b.val.toNat := by
  rw [Char.le_def, UInt32.le_def, BitVec.le_def]
  exact Iff.rfl

theorem char_beq_eq (a b : Char) : (a == b) = decide (a = b) := by
  cases h : a == b with
  | false =>
    symm
    simp only [decide_eq_false_iff_not]
    intro he
    subst he
    simp at h
  | true =>
    symm
    simp only [decide_eq_true_eq]
    exact eq_of_beq h

theorem char_eq_toNat (a b : Char) : a = b ↔ a.val.toNat = b.val.toNat := by
  constructor
  · intro h; rw [h]
  · intro h; exact Char.ext (UInt32.ext h)

/-- The character class `[1-9]` of the regular expression coincides with
"a digit other than 0". -/
theorem digit_window (d : Char) :
    (('1' ≤ d && d ≤ '9')) = (d.isDigit && !(d == '0')) := by
  have hv1 : ('1' : Char).val.toNat = 49 := rfl
  have hv9 : ('9' : Char).val.toNat = 57 := rfl
  have hv0 : ('0' : Char).val.toNat = 48 := rfl
  have u48 : ((48 : UInt32) ≤ d.val) ↔ 48 ≤ d.val.toNat := by
    rw [UInt32.le_def, BitVec.le_def]
    exact Iff.rfl
  have u57 : (d.val ≤ (57 : UInt32)) ↔ d.val.toNat ≤ 57 := by
    rw [UInt32.le_def, BitVec.le_def]
    exact Iff.rfl
  have h0 : (d = '0') ↔ d.val.toNat = 48 := (char_eq_toNat d '0').trans (by rw [hv0])
  rw [Bool.eq_iff_iff]
  simp only [Char.isDigit, ge_iff_le, char_beq_eq, Bool.and_eq_true, decide_eq_true_eq,
    char_le_iff, hv1, hv9, u48, u57, h0, Bool.not_eq_true', decide_eq_false_iff_not]
  omega

/-- Modelled from the spec's words (the claim's E.164 syntax): a leading
`+` followed by 2 to 15 digits, the first digit non-zero. -/
def isE164Spec (s : String) : Bool :=
  match s.data with
  | c :: ds =>
    c == '+' && (ds.all Char.isDigit && (2 ≤ ds.length && ds.length ≤ 15) &&
      (match ds with
       | d :: _ => !(d == '0')
       | [] => false))
  | [] => false

/-- The transcription of the handler's regular expression agrees with the
spec's E.164 description. -/
theorem isValid_eq_spec (s : String) : isValidPhoneNumber s = isE164Spec s := by
  unfold isValidPhoneNumber isE164Spec
  cases hd : s.data with
  | nil => rfl
  | cons c rest =>
    cases rest with
    | nil => simp
    | cons d rest2 =>
      rw [Bool.eq_iff_iff]
      simp only [digit_window, List.all_cons, List.length_cons, Bool.and_eq_true,
        decide_eq_true_eq]
      constructor
      · rintro ⟨hc, ⟨⟨hdig, hnz⟩, hall⟩, h1, h14⟩
        exact ⟨hc, ⟨⟨hdig, hall⟩, by omega, by omega⟩, hnz⟩
      · rintro ⟨hc, ⟨⟨hdig, hall⟩, h2, h15⟩, hnz⟩
        exact ⟨hc, ⟨⟨hdig, hnz⟩, hall⟩, by omega, by omega⟩

/-- C7, counterexample.  The number `15551234567` is valid E.164 except
for the missing leading `+` (prepending `+` makes it valid), yet the
initiate-OTP handler rejects it with the 400 validation error: the
handler validates BEFORE it normalises, so the normalisation can never
rescue a missing `+`. -/
theorem initiate_missing_plus_rejected :
    isValidPhoneNumber (normalizePhone "15551234567") = true
  ∧ (InitiateOTPHandler ⟨6, 600, 5⟩ 0 "123456" OTPStore.empty
      "15551234567").1 = .invalidPhone400 := by
  constructor <;> decide

/-- C7, amended.  The initiate-OTP handler accepts exactly the trimmed
inputs that already satisfy the full E.164 syntax — leading `+`
included — as described by the spec; on accepted inputs the subsequent
normalisation is the identity (the `+` is already present), and an input
without a leading `+` is always rejected. -/
theorem initiate_phone_validation (cfg : OTPConfig) (now : Nat) (otp : String)
    (st : OTPStore) (raw : String) :
    ((InitiateOTPHandler cfg now otp st raw).1 = .otpSent200
      ↔ isE164Spec (trimSpace raw) = true)
  ∧ (isValidPhoneNumber (trimSpace raw) = true →
      normalizePhone (trimSpace raw) = trimSpace raw)
  ∧ ((trimSpace raw).data.head? ≠ some '+' →
      (InitiateOTPHandler cfg now otp st raw).1 = .invalidPhone400) := by
  have hnorm : ∀ s : String, isValidPhoneNumber s = true → normalizePhone s = s := by
    intro s hs
    unfold isValidPhoneNumber at hs
    unfold normalizePhone
    cases hd : s.data with
    | nil => rw [hd] at hs; simp at hs
    | cons c rest =>
      cases rest with
      | nil => rw [hd] at hs; simp at hs
      | cons d rest2 =>
        rw [hd] at hs
        simp only [Bool.and_eq_true, beq_iff_eq] at hs
        simp [hs.1]
  have hplus : ∀ s : String, s.data.head? ≠ some '+' →
      isValidPhoneNumber s = false := by
    intro s hs
    unfold isValidPhoneNumber
    cases hd : s.data with
    | nil => rfl
    | cons c rest =>
      cases rest with
      | nil => rfl
      | cons d rest2 =>
        rw [hd] at hs
        simp only [List.head?_cons, ne_eq, Option.some.injEq] at hs
        simp [char_beq_eq, hs]
  refine ⟨?_, hnorm (trimSpace raw), ?_⟩
  · rw [← isValid_eq_spec]
    unfold InitiateOTPHandler
    cases hv : isValidPhoneNumber (trimSpace raw) <;> simp [hv]
  · intro h
    have hv := hplus (trimSpace raw) h
    unfold InitiateOTPHandler
    simp [hv]

/-- Witness for C7's amended theorem: a valid input accepted unchanged
and an invalid one rejected. -/
theorem initiate_phone_validation_witness :
    ((InitiateOTPHandler ⟨6, 600, 5⟩ 0 "123456" OTPStore.empty
        "+15551234567").1 = .otpSent200
      ↔ isE164Spec (trimSpace "+15551234567") = true)
  ∧ (isValidPhoneNumber (trimSpace "+15551234567") = true →
      normalizePhone (trimSpace "+15551234567") = trimSpace "+15551234567")
  ∧ ((trimSpace "+15551234567").data.head? ≠ some '+' →
      (InitiateOTPHandler ⟨6, 600, 5⟩ 0 "123456" OTPStore.empty
        "+15551234567").1 = .invalidPhone400) :=
  initiate_phone_validation ⟨6, 600, 5⟩ 0 "123456" OTPStore.empty "+15551234567"

/-! ## Claim theorems: the revoked flag on the ledger -/

theorem ledgerGet_put_self (l : List (String × RefreshTokenData))
    (k : String) (d : RefreshTokenData) :
    ledgerGet (ledgerPut l k d) k = some d := by
  simp [ledgerGet, ledgerPut, List.find?_cons]

theorem find?_filter_of_ne (l : List (String × RefreshTokenData))
    (k k' : String) (h : k' ≠ k) :
    (l.filter (fun p => !(p.1 == k))).find? (fun p => p.1 == k')
      = l.find? (fun p => p.1 == k') := by
  induction l with
  | nil => rfl
  | cons p t ih =>
    by_cases hp : p.1 = k
    · have hpk : (p.1 == k) = true := by simp [hp]
      have hq : (p.1 == k') = false := by
        simp only [beq_eq_false_iff_ne, ne_eq, hp]
        exact fun he => h he.symm
      simp [List.filter_cons, hpk, List.find?_cons, hq, ih]
    · have hpk : (p.1 == k) = false := by simp [hp]
      cases hq : (p.1 == k') with
      | false => simp [List.filter_cons, hpk, List.find?_cons, hq, ih]
      | true => simp [List.filter_cons, hpk, List.find?_cons, hq]

theorem ledgerGet_put_other (l : List (String × RefreshTokenData))
    (k k' : String) (d : RefreshTokenData) (h : k' ≠ k) :
    ledgerGet (ledgerPut l k d) k' = ledgerGet l k' := by
  have hk : (k == k') = false := by
    simp only [beq_eq_false_iff_ne, ne_eq]
    exact fun he => h he.symm
  simp [ledgerGet, ledgerPut, List.find?_cons, hk, find?_filter_of_ne l k k' h]

theorem applyRevoke_eq (st : LedgerState) (j : String) :
    applyLedgerOp st (.revoke j)
      = match ledgerGet st.tokens j with
        | none => st
        | some d =>
          ⟨ledgerPut st.tokens j { d with revoked := true }, j :: st.markers⟩ := by
  show (match RTLedger.revoke st j with
        | .ok s => s
        | .error _ => st) = _
  unfold RTLedger.revoke
  cases ledgerGet st.tokens j <;> rfl

/-- A revoke operation never un-revokes any record. -/
theorem revoke_preserves_revoked (st : LedgerState) (j jti : String)
    (h : (ledgerGet st.tokens jti).map RefreshTokenData.revoked = some true) :
    (ledgerGet (applyLedgerOp st (.revoke j)).tokens jti).map
      RefreshTokenData.revoked = some true := by
  rw [applyRevoke_eq]
  cases hg : ledgerGet st.tokens j with
  | none => exact h
  | some d =>
    by_cases hj : jti = j
    · subst hj
      simp [ledgerGet_put_self]
    · simpa [ledgerGet_put_other _ _ _ _ hj] using h

theorem revokeFamily_preserves_revoked (st : LedgerState) (f jti : String)
    (h : (ledgerGet st.tokens jti).map RefreshTokenData.revoked = some true) :
    (ledgerGet (applyLedgerOp st (.revokeFamily f)).tokens jti).map
      RefreshTokenData.revoked = some true := by
  show (ledgerGet (RTLedger.revokeFamily st f).tokens jti).map
      RefreshTokenData.revoked = some true
  unfold RTLedger.revokeFamily
  generalize st.tokens.filter (fun p => p.2.familyID == f) = members
  induction members generalizing st with
  | nil => simpa using h
  | cons p t ih =>
    simp only [List.foldl_cons]
    apply ih
    have := revoke_preserves_revoked st p.2.jti jti h
    simpa [applyLedgerOp] using this

/-- C8, counterexample.  The `Store` operation writes `Revoked: false`
unconditionally, so re-storing under an already-revoked identifier
resets the flag: after store(j1); revoke(j1); store(j1) the record for
`j1` is revoked and then un-revoked again — refuting monotonicity over
ALL ledger operations. -/
theorem revoked_flag_reset_by_store :
    ((ledgerGet (applyLedgerOp
        (applyLedgerOp (applyLedgerOp ⟨[], []⟩ (.store 0 "j1" "u1" "+1555" "fam1" 100))
          (.revoke "j1"))
        (.store 1 "j1" "u1" "+1555" "fam1" 100)).tokens "j1").map
      RefreshTokenData.revoked = some false)
  ∧ ((ledgerGet (applyLedgerOp
        (applyLedgerOp ⟨[], []⟩ (.store 0 "j1" "u1" "+1555" "fam1" 100))
        (.revoke "j1")).tokens "j1").map
      RefreshTokenData.revoked = some true) := by
  constructor <;> rfl

/-- C8, amended.  The revoked flag is monotonic under every revoke and
revoke-family operation and under every store keyed by a different JTI:
once a record is revoked, only a store that re-uses the very same JTI
(which the handlers never issue, as stored JTIs are freshly drawn UUIDs)
re-persists it with `revoked = false`. -/
theorem revoked_flag_monotonic (st : LedgerState) (jti : String) (op : LedgerOp)
    (hrev : (ledgerGet st.tokens jti).map RefreshTokenData.revoked = some true)
    (hop : ∀ now u p f e, op ≠ .store now jti u p f e) :
    (ledgerGet (applyLedgerOp st op).tokens jti).map
      RefreshTokenData.revoked = some true := by
  cases op with
  | store now j u p f e =>
    have hj : jti ≠ j := by
      intro he
      exact hop now u p f e (by rw [he])
    show (ledgerGet (RTLedger.store st now j u p f e).tokens jti).map
        RefreshTokenData.revoked = some true
    unfold RTLedger.store
    simpa [ledgerGet_put_other _ _ _ _ hj] using hrev
  | revoke j => exact revoke_preserves_revoked st j jti hrev
  | revokeFamily f => exact revokeFamily_preserves_revoked st f jti hrev

/-- Witness for C8's amended theorem: a revoked record survives a store
under a different identifier. -/
theorem revoked_flag_monotonic_witness :
    (ledgerGet (applyLedgerOp
        (applyLedgerOp (applyLedgerOp ⟨[], []⟩ (.store 0 "j1" "u1" "+1555" "fam1" 100))
          (.revoke "j1"))
        (.store 1 "j2" "u1" "+1555" "fam1" 100)).tokens "j1").map
      RefreshTokenData.revoked = some true :=
  revoked_flag_monotonic
    (applyLedgerOp (applyLedgerOp ⟨[], []⟩ (.store 0 "j1" "u1" "+1555" "fam1" 100))
      (.revoke "j1"))
    "j1" (.store 1 "j2" "u1" "+1555" "fam1" 100)
    (by rfl)
    (fun now u p f e h => by
      have : "j2" = "j1" := by injection h
      exact absurd this (by decide))

/-! ## Claim theorems: the verify-OTP length gate -/

theorem digitChar_utf8Size (k : Nat) : (digitChar k).utf8Size = 1 := by
  have h : ∀ m, m < 10 → (Char.ofNat (48 + m)).utf8Size = 1 := by
    intro m hm
    interval_cases m <;> decide
  exact h (k % 10) (Nat.mod_lt _ (by norm_num))

theorem digitChar_not_space (k : Nat) : isSpaceChar (digitChar k) = false := by
  have h : ∀ m, m < 10 → isSpaceChar (Char.ofNat (48 + m)) = false := by
    intro m hm
    interval_cases m <;> decide
  exact h (k % 10) (Nat.mod_lt _ (by norm_num))

theorem goLen_generateRandomOTP (draws : Nat → Nat) (n : Nat) :
    goLen (generateRandomOTP draws n) = n := by
  unfold goLen generateRandomOTP
  show (((List.range n).map (fun i => digitChar (draws i))).map Char.utf8Size).sum = n
  rw [List.map_map]
  have : ((List.range n).map (Char.utf8Size ∘ fun i => digitChar (draws i)))
      = List.replicate n 1 := by
    refine List.eq_replicate_iff.mpr ⟨by simp, ?_⟩
    intro c hc
    obtain ⟨i, _, hi⟩ := List.mem_map.mp hc
    rw [← hi]
    exact digitChar_utf8Size (draws i)
  rw [this, List.sum_replicate, smul_eq_mul, mul_one]

theorem dropWhile_isSpace_of_no_space (l : List Char)
    (h : ∀ c ∈ l, isSpaceChar c = false) :
    l.dropWhile isSpaceChar = l := by
  cases l with
  | nil => rfl
  | cons c t => simp [List.dropWhile_cons, h c (by simp)]

theorem trimSpace_generateRandomOTP (draws : Nat → Nat) (n : Nat) :
    trimSpace (generateRandomOTP draws n) = generateRandomOTP draws n := by
  unfold trimSpace generateRandomOTP
  have hmem : ∀ c ∈ (List.range n).map (fun i => digitChar (draws i)),
      isSpaceChar c = false := by
    intro c hc
    obtain ⟨i, _, hi⟩ := List.mem_map.mp hc
    rw [← hi]
    exact digitChar_not_space (draws i)
  show String.mk _ = String.mk _
  congr 1
  rw [dropWhile_isSpace_of_no_space _ hmem,
    dropWhile_isSpace_of_no_space _ (by simpa using hmem), List.reverse_reverse]

/-- C10.  A verify-OTP request whose trimmed candidate has byte length
below 4 or above 8 is rejected with a 400 validation error: the store is
untouched, the outcome does not depend on the store at all (the gate sits
before any store lookup), and the fixed 4–8 window is independent of the
configured OTP length — so with `OTP_LENGTH` configured outside 4–8,
every generated OTP (whose length equals `OTP_LENGTH`) falls outside the
window and is rejected at this check. -/
theorem verify_otp_length_gate (cfg : OTPConfig) (now : Nat) (st : OTPStore)
    (req : VerifyOTPReq) :
    (goLen (trimSpace req.otp) < 4 ∨ goLen (trimSpace req.otp) > 8 →
        ((VerifyOTPHandler cfg now st req).2 = st)
      ∧ (∀ st', (VerifyOTPHandler cfg now st' req).1
            = (VerifyOTPHandler cfg now st req).1)
      ∧ ((VerifyOTPHandler cfg now st req).1 = .invalidPhone400
          ∨ (VerifyOTPHandler cfg now st req).1 = .invalidOTP400))
  ∧ (∀ draws : Nat → Nat, cfg.length < 4 ∨ cfg.length > 8 →
        goLen (trimSpace (generateRandomOTP draws cfg.length)) < 4
          ∨ goLen (trimSpace (generateRandomOTP draws cfg.length)) > 8) := by
  constructor
  · intro hlen
    have hb : (goLen (trimSpace req.otp) < 4 || goLen (trimSpace req.otp) > 8)
        = true := by
      rcases hlen with h | h <;> simp [h]
    cases hp : isValidPhoneNumber (normalizePhone (trimSpace req.phoneNumber)) with
    | false =>
      have hrun : ∀ stx : OTPStore, VerifyOTPHandler cfg now stx req
          = (.invalidPhone400, stx) := by
        intro stx
        unfold VerifyOTPHandler
        simp [hp]
      refine ⟨by rw [hrun st], fun st' => by rw [hrun st', hrun st], .inl (by rw [hrun st])⟩
    | true =>
      have hrun : ∀ stx : OTPStore, VerifyOTPHandler cfg now stx req
          = (.invalidOTP400, stx) := by
        intro stx
        unfold VerifyOTPHandler
        simp [hp, hb]
      refine ⟨by rw [hrun st], fun st' => by rw [hrun st', hrun st], .inr (by rw [hrun st])⟩
  · intro draws hcfg
    rw [trimSpace_generateRandomOTP, goLen_generateRandomOTP]
    exact hcfg

/-- Witness for C10: a three-character candidate rejected on any store,
and a generated OTP of configured length 3 falling outside the window. -/
theorem verify_otp_length_gate_witness :
    (((VerifyOTPHandler ⟨3, 600, 5⟩ 0 OTPStore.empty
        ⟨"+15551234567", "123"⟩).1 = .invalidPhone400
      ∨ (VerifyOTPHandler ⟨3, 600, 5⟩ 0 OTPStore.empty
        ⟨"+15551234567", "123"⟩).1 = .invalidOTP400))
  ∧ (goLen (trimSpace (generateRandomOTP (fun _ => 7) 3)) < 4
      ∨ goLen (trimSpace (generateRandomOTP (fun _ => 7) 3)) > 8) :=
  ⟨((verify_otp_length_gate ⟨3, 600, 5⟩ 0 OTPStore.empty
      ⟨"+15551234567", "123"⟩).1 (by decide)).2.2,
   (verify_otp_length_gate ⟨3, 600, 5⟩ 0 OTPStore.empty
      ⟨"+15551234567", "123"⟩).2 (fun _ => 7) (by decide)⟩

end QCom
